import Mathlib

set_option maxRecDepth 4000

/-
Verification of the StockTracker snapshot pipeline.

Shallow embedding of the Python sources:
  fetch_stock_data.py   (namespace FetchStockData)
  stock_analysis.py     (namespace StockAnalysis)
  stock_analysis_old.py (namespace StockAnalysisOld)
Python strings are modelled as Lean String values; the string operations
the sources use (strip, split, startsWith, int, isdigit) are implemented
over List Char so that every definition evaluates inside the kernel.
-/

namespace StockTracker

/-- isPySpace c is true when Python str.strip would remove c (common ASCII whitespace). -/
def isPySpace (c : Char) : Bool :=
  c = ' ' || c = '\t' || c = '\n' || c = '\r' || c = '\x0b' || c = '\x0c'

/-- pyStrip models Python str.strip: remove leading and trailing whitespace. -/
def pyStrip (s : List Char) : List Char :=
  ((s.dropWhile isPySpace).reverse.dropWhile isPySpace).reverse

/-- pyStripStr is pyStrip on Lean strings. -/
def pyStripStr (s : String) : String :=
  String.mk (pyStrip s.toList)

/-- pySplitAux: accumulator-based splitting of a character list on a separator. -/
def pySplitAux (sep : Char) : List Char → List Char → List (List Char)
  | [], acc => [acc.reverse]
  | c :: rest, acc =>
    if c = sep then acc.reverse :: pySplitAux sep rest []
    else pySplitAux sep rest (c :: acc)

/-- pySplit models Python str.split(sep) for a one-character separator. -/
def pySplit (sep : Char) (s : List Char) : List (List Char) :=
  pySplitAux sep s []

/-- pyStartsWith models Python str.startswith. -/
def pyStartsWith (s p : String) : Bool :=
  p.toList.isPrefixOf s.toList

/-- digitsToNat folds a list of decimal digit characters into a Nat. -/
def digitsToNat (ds : List Char) : Nat :=
  ds.foldl (fun n c => 10 * n + (c.toNat - 48)) 0

/-- pyInt models Python int(s) on a character list: optional surrounding
whitespace, optional sign, then one or more decimal digits; anything else
raises in Python, which the embedding renders as none. -/
def pyInt (s : List Char) : Option Int :=
  let t := pyStrip s
  match t with
  | '-' :: ds =>
    if ds.isEmpty then none
    else if ds.all Char.isDigit then some (-(digitsToNat ds : Int)) else none
  | '+' :: ds =>
    if ds.isEmpty then none
    else if ds.all Char.isDigit then some (digitsToNat ds : Int) else none
  | ds =>
    if ds.isEmpty then none
    else if ds.all Char.isDigit then some (digitsToNat ds : Int) else none

/-- pyIntStr is pyInt on Lean strings. -/
def pyIntStr (s : String) : Option Int :=
  pyInt s.toList

/-- getField ps i is Python ps[i] on the split fields of a line (the
index is always in range at its use sites; the default is never hit). -/
def getField (ps : List (List Char)) (i : Nat) : List Char :=
  ps.getD i []

namespace FetchStockData

/-- RankedStock is one loaded entry of a buy-ranking file in
fetch_stock_data.py: dict with keys code, name, yesterday_buy. -/
structure RankedStock where
  code : String
  name : String
  yesterday_buy : Int
deriving DecidableEq, Repr

/-- lineParts: the comma fields of a stripped line. -/
def lineParts (line : String) : List (List Char) :=
  pySplit ',' (pyStrip line.toList)

/-- skippedLine: the line is blank or a comment after stripping
(the continue branch of both load_buy_ranking loops). -/
def skippedLine (line : String) : Bool :=
  (pyStrip line.toList).isEmpty || pyStartsWith (String.mk (pyStrip line.toList)) "#"

/-- parse_buy_ranking embeds the loop body of load_buy_ranking in
fetch_stock_data.py. The whole loop runs inside one try/except, so the
first int(parts[3]) failure aborts the parse: the embedding returns none
there, and previously accumulated entries are discarded by the caller. -/
def parse_buy_ranking : List String → Option (List RankedStock)
  | [] => some []
  | line :: rest =>
    if skippedLine line then parse_buy_ranking rest
    else
      let parts := lineParts line
      if parts.length ≥ 4 then
        match pyInt (getField parts 3) with
        | some v =>
          (parse_buy_ranking rest).map
            (fun tail =>
              { code := String.mk (pyStrip (getField parts 1))
                name := String.mk (pyStrip (getField parts 2))
                yesterday_buy := v } :: tail)
        | none => none
      else parse_buy_ranking rest

/-- load_buy_ranking in fetch_stock_data.py: the except branch of the
surrounding try returns the empty list when any line raises, so a parse
failure anywhere discards the whole file. -/
def load_buy_ranking (lines : List String) : List RankedStock :=
  (parse_buy_ranking lines).getD []

end FetchStockData

namespace StockAnalysis

/-- BuyRankInfo is the per-code value stored by load_buy_ranking in
stock_analysis.py: dict with keys name and volume. -/
structure BuyRankInfo where
  name : String
  volume : Int
deriving DecidableEq, Repr

/-- dictInsert models Python dict assignment d[k] = v on an
insertion-ordered association list: an existing key keeps its position and
gets the new value, a new key is appended. -/
def dictInsert (d : List (String × BuyRankInfo)) (k : String) (v : BuyRankInfo) :
    List (String × BuyRankInfo) :=
  if d.any (fun p => p.1 = k) then
    d.map (fun p => if p.1 = k then (k, v) else p)
  else d ++ [(k, v)]

/-- loadStep is the loop body of load_buy_ranking in stock_analysis.py:
blank and comment lines are skipped, lines with fewer than 4 comma fields
are skipped, and a non-integer volume field is caught by the inner
try/except and skipped (pass), so only that line is lost. -/
def loadStep (acc : List (String × BuyRankInfo)) (line : String) :
    List (String × BuyRankInfo) :=
  if FetchStockData.skippedLine line then acc
  else
    let parts := FetchStockData.lineParts line
    if parts.length ≥ 4 then
      match pyInt (pyStrip (getField parts 3)) with
      | some v =>
        dictInsert acc (String.mk (pyStrip (getField parts 1)))
          { name := String.mk (pyStrip (getField parts 2)), volume := v }
      | none => acc
    else acc

/-- load_buy_ranking in stock_analysis.py builds an insertion-ordered
dict keyed by code. -/
def load_buy_ranking (lines : List String) : List (String × BuyRankInfo) :=
  lines.foldl loadStep []

end StockAnalysis

/-- malformedLine holds exactly when neither loader would keep the line:
blank, comment, fewer than 4 comma fields, or a non-integer volume field. -/
def malformedLine (line : String) : Bool :=
  FetchStockData.skippedLine line ||
    (FetchStockData.lineParts line).length < 4 ||
    (pyInt (pyStrip (StockTracker.getField (FetchStockData.lineParts line) 3))).isNone

/-- badVolumeLine holds when the line reaches int(parts[3]) in
fetch_stock_data.py and that conversion raises: not skipped, at least 4
fields, volume not an integer. -/
def badVolumeLine (line : String) : Bool :=
  !FetchStockData.skippedLine line &&
    (FetchStockData.lineParts line).length ≥ 4 &&
    (pyInt (StockTracker.getField (FetchStockData.lineParts line) 3)).isNone

/-- A malformed line leaves the stock_analysis.py loader state unchanged. -/
lemma loadStep_malformed (acc : List (String × StockAnalysis.BuyRankInfo))
    (line : String) (h : malformedLine line = true) :
    StockAnalysis.loadStep acc line = acc := by
  unfold StockAnalysis.loadStep
  unfold malformedLine at h
  by_cases hs : FetchStockData.skippedLine line
  · simp [hs]
  · simp only [hs, Bool.false_or, Bool.or_eq_true, decide_eq_true_eq,
      Option.isNone_iff_eq_none] at h
    by_cases hlen : (FetchStockData.lineParts line).length ≥ 4
    · have hvol : pyInt (pyStrip (getField (FetchStockData.lineParts line) 3)) = none := by
        rcases h with h | h
        · omega
        · exact h
      simp [hs, hlen, hvol]
    · simp [hs, hlen]

/-- parse_buy_ranking steps over a blank or comment line. -/
lemma parse_buy_ranking_cons_skipped {l : String} (rest : List String)
    (h : FetchStockData.skippedLine l = true) :
    FetchStockData.parse_buy_ranking (l :: rest) =
      FetchStockData.parse_buy_ranking rest := by
  conv_lhs => unfold FetchStockData.parse_buy_ranking
  simp [h]

/-- parse_buy_ranking steps over a line with fewer than 4 comma fields. -/
lemma parse_buy_ranking_cons_short {l : String} (rest : List String)
    (h : (FetchStockData.lineParts l).length < 4) :
    FetchStockData.parse_buy_ranking (l :: rest) =
      FetchStockData.parse_buy_ranking rest := by
  conv_lhs => unfold FetchStockData.parse_buy_ranking
  by_cases hs : FetchStockData.skippedLine l
  · simp [hs]
  · have hlen : ¬ (FetchStockData.lineParts l).length ≥ 4 := by omega
    simp [hs, hlen]

/-- Prepending lines preserves an aborted parse in fetch_stock_data.py. -/
lemma parse_buy_ranking_append_none (pre tail : List String)
    (h : FetchStockData.parse_buy_ranking tail = none) :
    FetchStockData.parse_buy_ranking (pre ++ tail) = none := by
  induction pre with
  | nil => simpa using h
  | cons l pre ih =>
    simp only [List.cons_append]
    conv_lhs => unfold FetchStockData.parse_buy_ranking
    by_cases hs : FetchStockData.skippedLine l
    · simp [hs, ih]
    · by_cases hlen : (FetchStockData.lineParts l).length ≥ 4
      · simp only [hs, if_false, hlen, if_true]
        cases pyInt (getField (FetchStockData.lineParts l) 3) with
        | none => rfl
        | some v => simp [ih]
      · simp [hs, hlen, ih]

/-- Parsing in fetch_stock_data.py only depends on the tail after a common
list of leading lines, line by line. -/
lemma parse_buy_ranking_append_congr (pre : List String) {t₁ t₂ : List String}
    (h : FetchStockData.parse_buy_ranking t₁ = FetchStockData.parse_buy_ranking t₂) :
    FetchStockData.parse_buy_ranking (pre ++ t₁) =
      FetchStockData.parse_buy_ranking (pre ++ t₂) := by
  induction pre with
  | nil => simpa using h
  | cons l pre ih =>
    simp only [List.cons_append]
    unfold FetchStockData.parse_buy_ranking
    by_cases hs : FetchStockData.skippedLine l
    · simp [hs, ih]
    · by_cases hlen : (FetchStockData.lineParts l).length ≥ 4
      · simp only [hs, if_false, hlen, if_true]
        cases pyInt (getField (FetchStockData.lineParts l) 3) with
        | none => rfl
        | some v => simp [ih]
      · simp [hs, hlen, ih]

/-- A bad volume field aborts the fetch_stock_data.py parse of the rest. -/
lemma parse_buy_ranking_badVolume (bad : String) (post : List String)
    (h : badVolumeLine bad = true) :
    FetchStockData.parse_buy_ranking (bad :: post) = none := by
  unfold badVolumeLine at h
  simp only [Bool.and_eq_true, Bool.not_eq_true', decide_eq_true_eq,
    Option.isNone_iff_eq_none] at h
  obtain ⟨⟨hs, hlen⟩, hvol⟩ := h
  conv_lhs => unfold FetchStockData.parse_buy_ranking
  simp [hs, hlen, hvol]

/-- C3. The claim as stated fails on load_buy_ranking in
fetch_stock_data.py: its try/except wraps the whole loop, so the first
non-integer volume field aborts the parse and the loader returns the empty
list, discarding every other well-formed line of the same file. The second
and third conjuncts show a concrete two-line file where the well-formed
second line is kept alone but lost once the malformed first line is
present. -/
theorem C3_loader_counterexample :
    badVolumeLine "1,2330,TSMC,abc" = true ∧
    FetchStockData.load_buy_ranking ["1,2330,TSMC,abc", "2,2317,Hon,500"] = [] ∧
    FetchStockData.load_buy_ranking ["2,2317,Hon,500"] =
      [{ code := "2317", name := "Hon", yesterday_buy := 500 }] := by
  refine ⟨by decide, by decide, by decide⟩

/-- C3 (amended). Neither loader ever raises (both embeddings are total
functions of the file lines). The stock_analysis.py loader skips each
blank, comment, short or non-integer-volume line and keeps every other
well-formed line of the same file. The fetch_stock_data.py loader skips
blank, comment and short lines the same way, but a non-integer volume
field makes it discard the entire file and return the empty list. -/
theorem C3_loader_amended :
    (∀ (pre post : List String) (bad : String), malformedLine bad = true →
      StockAnalysis.load_buy_ranking (pre ++ bad :: post) =
        StockAnalysis.load_buy_ranking (pre ++ post)) ∧
    (∀ (pre post : List String) (l : String),
      (FetchStockData.skippedLine l || (FetchStockData.lineParts l).length < 4) = true →
      FetchStockData.load_buy_ranking (pre ++ l :: post) =
        FetchStockData.load_buy_ranking (pre ++ post)) ∧
    (∀ (pre post : List String) (bad : String), badVolumeLine bad = true →
      FetchStockData.load_buy_ranking (pre ++ bad :: post) = []) := by
  refine ⟨?_, ?_, ?_⟩
  · intro pre post bad h
    unfold StockAnalysis.load_buy_ranking
    rw [List.foldl_append, List.foldl_append]
    simp only [List.foldl_cons, loadStep_malformed _ _ h]
  · intro pre post l h
    simp only [Bool.or_eq_true, decide_eq_true_eq] at h
    have hstep : FetchStockData.parse_buy_ranking (l :: post) =
        FetchStockData.parse_buy_ranking post := by
      rcases h with h | h
      · exact parse_buy_ranking_cons_skipped post h
      · exact parse_buy_ranking_cons_short post h
    unfold FetchStockData.load_buy_ranking
    rw [parse_buy_ranking_append_congr pre hstep]
  · intro pre post bad h
    unfold FetchStockData.load_buy_ranking
    rw [parse_buy_ranking_append_none pre _ (parse_buy_ranking_badVolume bad post h)]
    rfl

/-- C3 witness: the amended loader facts applied to a concrete file. -/
theorem C3_loader_amended_witness :
    StockAnalysis.load_buy_ranking
        (["1,2330,TSMC,10"] ++ "1,2317,Hon,abc" :: ["2,3105,Win,700"]) =
      StockAnalysis.load_buy_ranking (["1,2330,TSMC,10"] ++ ["2,3105,Win,700"]) ∧
    FetchStockData.load_buy_ranking
        (["1,2330,TSMC,10"] ++ "1,2317,Hon,abc" :: ["2,3105,Win,700"]) = [] :=
  ⟨C3_loader_amended.1 ["1,2330,TSMC,10"] ["2,3105,Win,700"] "1,2317,Hon,abc" (by decide),
   C3_loader_amended.2.2 ["1,2330,TSMC,10"] ["2,3105,Win,700"] "1,2317,Hon,abc" (by decide)⟩

namespace FetchStockData

/-- HistoryIndexEntry is one record of data/data_list.json, appended by
update_data_list in fetch_stock_data.py for every run. -/
structure HistoryIndexEntry where
  timestamp : String
  date : String
  time : String
  tse_count : Nat
  otc_count : Nat
  filename : String
deriving DecidableEq, Repr

/-- update_data_list in fetch_stock_data.py: append the new record, then
keep only the last 100 entries (Python data_list[-100:]) before writing
the list back. -/
def update_data_list (data_list : List HistoryIndexEntry)
    (e : HistoryIndexEntry) : List HistoryIndexEntry :=
  let appended := data_list ++ [e]
  appended.drop (appended.length - 100)

end FetchStockData

/-- One update step starting from the last-100 suffix of a history l
yields the last-100 suffix of l with the new entry appended. -/
lemma update_data_list_suffix (l : List FetchStockData.HistoryIndexEntry)
    (e : FetchStockData.HistoryIndexEntry) :
    FetchStockData.update_data_list (l.drop (l.length - 100)) e =
      (l ++ [e]).drop ((l ++ [e]).length - 100) := by
  unfold FetchStockData.update_data_list
  simp only [List.length_append, List.length_drop, List.length_cons,
    List.length_nil]
  by_cases h : l.length ≤ 100
  · have h0 : l.length - 100 = 0 := by omega
    simp [h0]
  · have hk : l.length - 100 ≤ l.length := by omega
    rw [show l.length - (l.length - 100) + (0 + 1) - 100 = 1 from by omega]
    rw [← List.drop_append_of_le_length hk]
    rw [List.drop_drop]
    congr 1
    omega

/-- C4. For every sequence of appends to the history index, after each
append the index holds at most 100 entries; starting from an empty index,
the surviving entries after any sequence of appends are exactly the most
recent 100 in insertion order (the drop of all but the last 100); in
particular after 150 successive appends exactly the most recent 100
remain. This is update_data_list in fetch_stock_data.py. -/
theorem C4_history_index_bounded :
    (∀ (l : List FetchStockData.HistoryIndexEntry) (e),
      (FetchStockData.update_data_list l e).length ≤ 100) ∧
    (∀ (es : List FetchStockData.HistoryIndexEntry),
      List.foldl FetchStockData.update_data_list [] es =
        es.drop (es.length - 100)) ∧
    (∀ (es : List FetchStockData.HistoryIndexEntry), es.length = 150 →
      List.foldl FetchStockData.update_data_list [] es = es.drop 50) := by
  have key : ∀ (es : List FetchStockData.HistoryIndexEntry),
      List.foldl FetchStockData.update_data_list [] es =
        es.drop (es.length - 100) := by
    intro es
    induction es using List.reverseRecOn with
    | nil => rfl
    | append_singleton es e ih =>
      rw [List.foldl_append, List.foldl_cons, List.foldl_nil, ih,
        update_data_list_suffix]
  refine ⟨?_, key, ?_⟩
  · intro l e
    unfold FetchStockData.update_data_list
    simp only [List.length_drop, List.length_append, List.length_cons,
      List.length_nil]
    omega
  · intro es h
    rw [key, h]

/-- demoHistoryEntries: 150 distinct history index records. -/
def demoHistoryEntries : List FetchStockData.HistoryIndexEntry :=
  (List.range 150).map (fun i =>
    { timestamp := toString i, date := "d", time := "t",
      tse_count := i, otc_count := 0, filename := "f" })

/-- C4 witness: 150 successive appends keep exactly the last 100 records. -/
theorem C4_history_index_bounded_witness :
    List.foldl FetchStockData.update_data_list [] demoHistoryEntries =
      demoHistoryEntries.drop 50 :=
  C4_history_index_bounded.2.2 demoHistoryEntries (by simp [demoHistoryEntries])

namespace FetchStockData

/-- chooseExchange is the venue branch at the top of get_stock_order_info
in fetch_stock_data.py: tse when the code starts with 00 or has exactly 4
characters, otc otherwise. The market whose watchlist supplied the code is
not an input. -/
def chooseExchange (stock_code : String) : String :=
  if pyStartsWith stock_code "00" || stock_code.length == 4 then "tse" else "otc"

/-- ex_ch is the market-qualified request parameter built for one code. -/
def ex_ch (stock_code : String) : String :=
  chooseExchange stock_code ++ "_" ++ stock_code ++ ".tw"

/-- TwseQuote is msgArray[0] of a successful exchange response; fields the
source reads with dict.get defaults are Option-valued. -/
structure TwseQuote where
  n : Option String
  z : Option String
  t : Option String
  f : String
  g : String
deriving DecidableEq, Repr

/-- TwseOutcome is the outcome of the single request issued by
get_stock_order_info: a good body, a non-200 status, a body failing the
rtcode or msgArray check, or an exception (timeouts included). -/
inductive TwseOutcome where
  | ok (q : TwseQuote)
  | nonSuccessStatus
  | badBody
  | exn
deriving DecidableEq, Repr

/-- keepVolumeToken is the comprehension guard over ladder tokens:
the token is nonempty and, after removing dashes, nonempty and digits. -/
def keepVolumeToken (v : List Char) : Bool :=
  !v.isEmpty && !(v.filter (fun c => c ≠ '-')).isEmpty &&
    (v.filter (fun c => c ≠ '-')).all Char.isDigit

/-- pyIntList models the comprehensions over the underscore-separated
ladder strings: tokens passing the guard are converted with int(v); a kept
token whose conversion raises aborts get_stock_order_info, rendered as
none here and caught by the except branch of the caller. -/
def pyIntList (s : String) : Option (List Int) :=
  ((pySplit '_' s.toList).filter keepVolumeToken).mapM pyInt

/-- OrderResult is the success dict returned by get_stock_order_info. -/
structure OrderResult where
  code : String
  name : String
  currentPrice : String
  buyTotal : Int
  sellTotal : Int
  diff : Int
  time : String
deriving DecidableEq, Repr

/-- OrderOutcome is either the success dict or the failure dict
holding only code, name and success False. -/
inductive OrderOutcome where
  | ok (r : OrderResult)
  | fail (code name : String)
deriving DecidableEq, Repr

/-- get_stock_order_info in fetch_stock_data.py with TEST_MODE = False
(its value in the source): one request for the code, and on a good body
the bid and ask ladders are summed; every failure path, exceptions
included, yields the failure dict. The network is passed in as the
response this one request would get. -/
def get_stock_order_info (stock_code stock_name : String)
    (resp : TwseOutcome) : OrderOutcome :=
  match resp with
  | .ok q =>
    match pyIntList q.f, pyIntList q.g with
    | some sellVolumes, some buyVolumes =>
      let sell_total := sellVolumes.foldl (· + ·) 0
      let buy_total := buyVolumes.foldl (· + ·) 0
      .ok { code := stock_code, name := q.n.getD stock_name,
            currentPrice := q.z.getD "-",
            buyTotal := buy_total, sellTotal := sell_total,
            diff := buy_total - sell_total, time := q.t.getD "" }
    | _, _ => .fail stock_code stock_name
  | _ => .fail stock_code stock_name

/-- FetchedStock is one element of the results list of fetch_market_data:
the dict merge of the loaded stock and the per-code result. Failure
results carry no quote fields, so those stay none there. -/
structure FetchedStock where
  code : String
  name : String
  yesterday_buy : Int
  currentPrice : Option String
  buyTotal : Option Int
  sellTotal : Option Int
  diff : Option Int
  time : Option String
  success : Bool
deriving DecidableEq, Repr

/-- fetch_market_data in fetch_stock_data.py, after load_buy_ranking:
every loaded stock is queried once and the merged dict is appended to the
results whether or not the query succeeded; the loop never aborts. The
network is a map from code to that request response. -/
def fetch_market_data (network : String → TwseOutcome)
    (stocks : List RankedStock) : List FetchedStock :=
  stocks.map (fun s =>
    match get_stock_order_info s.code s.name (network s.code) with
    | .ok r =>
      { code := r.code, name := r.name, yesterday_buy := s.yesterday_buy,
        currentPrice := some r.currentPrice, buyTotal := some r.buyTotal,
        sellTotal := some r.sellTotal, diff := some r.diff,
        time := some r.time, success := true }
    | .fail c n =>
      { code := c, name := n, yesterday_buy := s.yesterday_buy,
        currentPrice := none, buyTotal := none, sellTotal := none,
        diff := none, time := none, success := false })

/-- fetch_market_requests lists the ex_ch parameter of each request the
fetch_market_data loop issues, in loop order. -/
def fetch_market_requests (stocks : List RankedStock) : List String :=
  stocks.map (fun s => ex_ch s.code)

end FetchStockData

namespace StockAnalysis

/-- YahooFields are the values get_stock_info in stock_analysis.py
extracts from one scraped quote page, each kept as the scraped string:
the traded price, open price, change, change percent and the two depth
subtotals, with the unavailable sentinel as default. The page markup is
external; the embedding takes the extracted fields as the outcome of one
successful request. -/
structure YahooFields where
  price : String
  openPrice : String
  change : String
  changePercent : String
  buyTotal : String
  sellTotal : String
deriving DecidableEq, Repr

/-- FetchOutcome is the outcome of one HTTP attempt inside
get_stock_info: a parsed page, a requests.Timeout, or another exception. -/
inductive FetchOutcome where
  | ok (fields : YahooFields)
  | timeout
  | failed
deriving DecidableEq, Repr

/-- MAX_RETRY as configured in stock_analysis.py. -/
def MAX_RETRY : Nat := 3

/-- firstOk n outcomes is the first successful attempt among at most n. -/
def firstOk : Nat → List FetchOutcome → Option YahooFields
  | 0, _ => none
  | _ + 1, [] => none
  | _ + 1, FetchOutcome.ok f :: _ => some f
  | n + 1, FetchOutcome.timeout :: rest => firstOk n rest
  | n + 1, FetchOutcome.failed :: rest => firstOk n rest

/-- get_stock_info in stock_analysis.py: up to MAX_RETRY attempts; a
timeout or any other exception moves on to the next attempt; when the
loop ends without a success the function returns None. -/
def get_stock_info (attempts : List FetchOutcome) : Option YahooFields :=
  firstOk MAX_RETRY attempts

/-- MergedStock is one value of the dict merge_stocks builds in the
fourth stage of stock_analysis.py. -/
structure MergedStock where
  code : String
  name : String
  market : String
  mention_count : Nat
  yesterday_buy : Int
  source : String
deriving DecidableEq, Repr

/-- PriceRecord is one element of the results list of
fetch_stocks_price, and one element of the stocks array of the output
artifact. -/
structure PriceRecord where
  code : String
  name : String
  market : String
  mention_count : Nat
  yesterday_buy : Int
  current_price : String
  open_price : String
  change : String
  change_percent : String
  buy_volume : String
  sell_volume : String
  update_time : String
deriving DecidableEq, Repr

/-- mkPriceRecord is the result dict built in fetch_stocks_price for one
successful get_stock_info call: every quote field is the scraped string
passed through unchanged, and update_time is the current wall-clock
string. -/
def mkPriceRecord (now : String) (s : MergedStock) (info : YahooFields) :
    PriceRecord :=
  { code := s.code, name := s.name, market := s.market,
    mention_count := s.mention_count, yesterday_buy := s.yesterday_buy,
    current_price := info.price, open_price := info.openPrice,
    change := info.change, change_percent := info.changePercent,
    buy_volume := info.buyTotal, sell_volume := info.sellTotal,
    update_time := now }

/-- fetch_stocks_price in stock_analysis.py: each stock is queried once
with get_stock_info; a successful query appends the result dict, a failed
one logs a warning and appends nothing, and the loop continues either
way. The network is a map from code to the attempt outcomes get_stock_info
would see. -/
def fetch_stocks_price (network : String → List FetchOutcome)
    (now : String) (stock_list : List MergedStock) : List PriceRecord :=
  stock_list.filterMap (fun s =>
    (get_stock_info (network s.code)).map (mkPriceRecord now s))

/-- rankLe is the comparison realized by the fifth-stage sort of
stock_analysis.py main: sorted(key mention_count then yesterday_buy,
reverse True). rankLe a b holds when a may come before b: lexicographic
key of a at least that of b. -/
def rankLe (a b : MergedStock) : Prop :=
  b.mention_count < a.mention_count ∨
    (b.mention_count = a.mention_count ∧ b.yesterday_buy ≤ a.yesterday_buy)

instance : DecidableRel rankLe := fun a b => by
  unfold rankLe
  exact inferInstance

instance : IsTotal MergedStock rankLe := ⟨by
  intro a b
  unfold rankLe
  omega⟩

instance : IsTrans MergedStock rankLe := ⟨by
  intro a b c
  unfold rankLe
  omega⟩

/-- sorted_stocks is the fifth-stage sort of stock_analysis.py main:
Python sorted is a stable sort, here realized by the stable
insertionSort, by mention_count then yesterday_buy, descending. -/
def sorted_stocks (merged : List MergedStock) : List MergedStock :=
  List.insertionSort rankLe merged

/-- fifth_stage is main's fifth stage for one market: sort the merged
dict values, then fetch prices for them in that order. Its value is the
stocks array the sixth stage writes. -/
def fifth_stage (network : String → List FetchOutcome) (now : String)
    (merged : List MergedStock) : List PriceRecord :=
  fetch_stocks_price network now (sorted_stocks merged)

/-- MarketOutput is the output artifact assembled in the sixth stage of
stock_analysis.py main. -/
structure MarketOutput where
  update_time : String
  market : String
  total_news : Nat
  hot_stocks_count : Nat
  stocks : List PriceRecord
deriving DecidableEq, Repr

/-- assemble_output is the dict written as the output artifact in the
sixth stage: update_time is datetime.now rendered at write time. -/
def assemble_output (now : String) (market : String) (totalNews : Nat)
    (stockData : List PriceRecord) : MarketOutput :=
  { update_time := now, market := market, total_news := totalNews,
    hot_stocks_count := stockData.length, stocks := stockData }

end StockAnalysis

/-- demoNetworkFetch: the request for code 2330 gets a good body, the one
for code 3105 raises (a timeout is one such exception). -/
def demoNetworkFetch : String → FetchStockData.TwseOutcome :=
  fun code =>
    if code = "2330" then
      FetchStockData.TwseOutcome.ok
        { n := some "TSMC", z := some "1000", t := some "12:00:00",
          f := "1_2_3_4_5", g := "5_4_3_2_1" }
    else FetchStockData.TwseOutcome.exn

/-- demoRankedStocks: a two-stock loaded watchlist. -/
def demoRankedStocks : List FetchStockData.RankedStock :=
  [{ code := "2330", name := "TSMC", yesterday_buy := 500 },
   { code := "3105", name := "Win", yesterday_buy := 300 }]

/-- C2. The claim as stated fails on fetch_market_data in
fetch_stock_data.py: a code whose quote fetch fails is not absent from the
combined results list that save_data then writes verbatim — the loop
appends the merged dict for every stock, so the failed code 3105 is
present, flagged success false, right after the successful 2330. -/
theorem C2_failed_fetch_counterexample :
    (FetchStockData.fetch_market_data demoNetworkFetch demoRankedStocks).map
        (fun r => (r.code, r.success)) = [("2330", true), ("3105", false)] ∧
    "3105" ∈ (FetchStockData.fetch_market_data demoNetworkFetch
        demoRankedStocks).map (fun r => r.code) := by
  refine ⟨by decide, by decide⟩

/-- C2 (amended). Failures are soft in both scripts and the run always
continues over the remaining codes. In stock_analysis.py the affected
codes are indeed absent from the snapshot output: the output codes are
exactly the codes whose get_stock_info succeeded, in order, and a code
all of whose entries fail never appears. In fetch_stock_data.py every
queried stock contributes one entry whether or not the fetch succeeded:
a failed fetch yields an entry for that code with success False rather
than an absent code. -/
theorem C2_soft_failure_amended :
    (∀ (network : String → List StockAnalysis.FetchOutcome) (now : String)
        (l : List StockAnalysis.MergedStock),
      (StockAnalysis.fetch_stocks_price network now l).map (fun r => r.code) =
        (l.filter (fun s =>
          (StockAnalysis.get_stock_info (network s.code)).isSome)).map
            (fun s => s.code)) ∧
    (∀ (network : String → List StockAnalysis.FetchOutcome) (now : String)
        (l : List StockAnalysis.MergedStock) (c : String),
      (∀ s ∈ l, s.code = c →
        StockAnalysis.get_stock_info (network s.code) = none) →
      c ∉ (StockAnalysis.fetch_stocks_price network now l).map
            (fun r => r.code)) ∧
    (∀ (network : String → FetchStockData.TwseOutcome)
        (stocks : List FetchStockData.RankedStock),
      (FetchStockData.fetch_market_data network stocks).length =
        stocks.length) ∧
    (∀ (network : String → FetchStockData.TwseOutcome)
        (stocks : List FetchStockData.RankedStock)
        (s : FetchStockData.RankedStock), s ∈ stocks →
      FetchStockData.get_stock_order_info s.code s.name (network s.code) =
        FetchStockData.OrderOutcome.fail s.code s.name →
      ∃ r ∈ FetchStockData.fetch_market_data network stocks,
        r.code = s.code ∧ r.success = false) := by
  have key : ∀ (network : String → List StockAnalysis.FetchOutcome)
      (now : String) (l : List StockAnalysis.MergedStock),
      (StockAnalysis.fetch_stocks_price network now l).map (fun r => r.code) =
        (l.filter (fun s =>
          (StockAnalysis.get_stock_info (network s.code)).isSome)).map
            (fun s => s.code) := by
    intro network now l
    induction l with
    | nil => rfl
    | cons s l ih =>
      simp only [StockAnalysis.fetch_stocks_price, List.filterMap_cons,
        List.filter_cons] at ih ⊢
      cases h : StockAnalysis.get_stock_info (network s.code) with
      | none => simpa [h] using ih
      | some fields =>
        simpa [h, StockAnalysis.mkPriceRecord] using ih
  refine ⟨key, ?_, ?_, ?_⟩
  · intro network now l c hall hmem
    rw [key] at hmem
    obtain ⟨s, hs, hcode⟩ := List.mem_map.mp hmem
    have hsl := List.mem_filter.mp hs
    have hnone := hall s hsl.1 hcode
    rw [hnone] at hsl
    simpa using hsl.2
  · intro network stocks
    simp [FetchStockData.fetch_market_data]
  · intro network stocks s hs hfail
    refine ⟨_, List.mem_map_of_mem _ hs, ?_⟩
    rw [hfail]
    exact ⟨rfl, rfl⟩

/-- demoYahoo: a successful scraped page for the demo stock. -/
def demoYahoo : StockAnalysis.YahooFields :=
  { price := "105.5", openPrice := "100", change := "+5.5",
    changePercent := "+5.50%", buyTotal := "123", sellTotal := "45" }

/-- demoNetworkAnalysis: 2330 succeeds on the first attempt; every other
code times out or errors on all MAX_RETRY attempts. -/
def demoNetworkAnalysis : String → List StockAnalysis.FetchOutcome :=
  fun code =>
    if code = "2330" then [StockAnalysis.FetchOutcome.ok demoYahoo]
    else [StockAnalysis.FetchOutcome.timeout,
      StockAnalysis.FetchOutcome.failed, StockAnalysis.FetchOutcome.timeout]

/-- demoMergedStocks: a merged set with one fetchable and one dead code. -/
def demoMergedStocks : List StockAnalysis.MergedStock :=
  [{ code := "2330", name := "TSMC", market := "TSE", mention_count := 3,
     yesterday_buy := 500, source := "news" },
   { code := "9999", name := "Ghost", market := "TSE", mention_count := 1,
     yesterday_buy := 100, source := "buy" }]

/-- C2 witness: the amended soft-failure facts at a concrete run. -/
theorem C2_soft_failure_amended_witness :
    "9999" ∉ (StockAnalysis.fetch_stocks_price demoNetworkAnalysis "now"
        demoMergedStocks).map (fun r => r.code) ∧
    (∃ r ∈ FetchStockData.fetch_market_data demoNetworkFetch
        demoRankedStocks, r.code = "3105" ∧ r.success = false) :=
  ⟨C2_soft_failure_amended.2.1 demoNetworkAnalysis "now" demoMergedStocks
      "9999" (by decide),
   C2_soft_failure_amended.2.2.2 demoNetworkFetch demoRankedStocks
      { code := "3105", name := "Win", yesterday_buy := 300 }
      (by decide) (by decide)⟩

/-- C10. The venue used for each request of fetch_market_data is a
function of the code string alone: the requests issued for a stock list
are exactly the ex_ch strings of its codes, with the exchange chosen by
chooseExchange, which consults nothing but the shape of the code — tse
when it starts with 00 or has exactly 4 characters, otc otherwise. Since
main passes TSE and OTC watchlists to the same fetch_market_data, every
4-character code from the OTC watchlist is queried against the tse
venue. -/
theorem C10_venue_from_code_shape :
    (∀ stocks : List FetchStockData.RankedStock,
      FetchStockData.fetch_market_requests stocks =
        stocks.map (fun s =>
          FetchStockData.chooseExchange s.code ++ "_" ++ s.code ++ ".tw")) ∧
    (∀ code : String, code.length = 4 →
      FetchStockData.chooseExchange code = "tse") ∧
    (∀ code : String, pyStartsWith code "00" = false → code.length ≠ 4 →
      FetchStockData.chooseExchange code = "otc") := by
  refine ⟨fun stocks => rfl, ?_, ?_⟩
  · intro code h
    simp [FetchStockData.chooseExchange, h]
  · intro code h1 h2
    simp [FetchStockData.chooseExchange, h1, h2]

/-- C10 witness: a 4-character OTC-listed code is still queried against
the tse venue, and a code of neither shape goes to otc. -/
theorem C10_venue_from_code_shape_witness :
    FetchStockData.chooseExchange "6488" = "tse" ∧
    FetchStockData.chooseExchange "55661" = "otc" :=
  ⟨C10_venue_from_code_shape.2.1 "6488" (by decide),
   C10_venue_from_code_shape.2.2 "55661" (by decide) (by decide)⟩

/-- specChangeKey follows the words of the claim, not the source: the
changePercent a snapshot carries, parsed as a signed whole-percent number
when parsable, none when it is the unavailable sentinel or otherwise
unparsable (an optional trailing percent sign is removed; the inputs used
below are integral percents). -/
def specChangeKey (s : String) : Option Int :=
  pyInt (s.toList.filter (fun c => c ≠ '%'))

/-- specAfterB a b follows the words of the claim: a may precede b when
sorting by changePercent descending with unavailable values after all
parsable ones. -/
def specAfterB (a b : StockAnalysis.PriceRecord) : Bool :=
  match specChangeKey a.change_percent, specChangeKey b.change_percent with
  | some x, some y => decide (y ≤ x)
  | some _, none => true
  | none, some _ => false
  | none, none => true

/-- specSortedByChangeDesc follows the words of the claim: the list is
ordered by changePercent descending, unavailable sentinel last. -/
def specSortedByChangeDesc (l : List StockAnalysis.PriceRecord) : Prop :=
  l.Pairwise (fun a b => specAfterB a b = true)

/-- demoStock1101: the high-mention stock of the C5 run. -/
def demoStock1101 : StockAnalysis.MergedStock :=
  { code := "1101", name := "Tai", market := "TSE", mention_count := 5,
    yesterday_buy := 100, source := "news" }

/-- demoStock1102: the low-mention stock of the C5 run. -/
def demoStock1102 : StockAnalysis.MergedStock :=
  { code := "1102", name := "Ya", market := "TSE", mention_count := 1,
    yesterday_buy := 50, source := "buy" }

/-- demoMerged5: the merged dict values of the C5 run. -/
def demoMerged5 : List StockAnalysis.MergedStock :=
  [demoStock1101, demoStock1102]

/-- demoNetwork5: 1101 trades down 2 percent, 1102 up 3 percent. -/
def demoNetwork5 : String → List StockAnalysis.FetchOutcome :=
  fun code =>
    if code = "1101" then
      [StockAnalysis.FetchOutcome.ok
        { price := "98", openPrice := "100", change := "-2",
          changePercent := "-2%", buyTotal := "10", sellTotal := "20" }]
    else
      [StockAnalysis.FetchOutcome.ok
        { price := "103", openPrice := "100", change := "+3",
          changePercent := "+3%", buyTotal := "30", sellTotal := "10" }]

/-- C5. The claim as stated fails on the fifth-stage sort of
stock_analysis.py main: snapshots are sorted by mention_count then
yesterday_buy descending before prices are fetched, and nothing reorders
them by changePercent afterwards. In this run the finalized list puts the
minus-2-percent stock 1101 before the plus-3-percent stock 1102, so it is
not ordered by changePercent descending. -/
theorem C5_sort_counterexample :
    ¬ specSortedByChangeDesc
        (StockAnalysis.fifth_stage demoNetwork5 "now" demoMerged5) := by
  unfold specSortedByChangeDesc
  decide

/-- recRankLe is rankLe read off the produced snapshot records. -/
def recRankLe (a b : StockAnalysis.PriceRecord) : Prop :=
  b.mention_count < a.mention_count ∨
    (b.mention_count = a.mention_count ∧ b.yesterday_buy ≤ a.yesterday_buy)

/-- C5 (amended). The fifth stage of stock_analysis.py main sorts the
merged stocks by mention_count then yesterday_buy, descending, with a
stable sort, and the finalized per-market output keeps that order: the
sorted list is a permutation of the merged stocks ordered by that key,
the snapshot records inherit the descending key order, and any pair
already in key order — ties included — keeps its relative order. No
ordering by changePercent takes place. -/
theorem C5_sort_amended :
    (∀ merged : List StockAnalysis.MergedStock,
      (StockAnalysis.sorted_stocks merged).Sorted StockAnalysis.rankLe) ∧
    (∀ merged : List StockAnalysis.MergedStock,
      (StockAnalysis.sorted_stocks merged).Perm merged) ∧
    (∀ (network : String → List StockAnalysis.FetchOutcome) (now : String)
        (merged : List StockAnalysis.MergedStock),
      (StockAnalysis.fifth_stage network now merged).Pairwise recRankLe) ∧
    (∀ (merged : List StockAnalysis.MergedStock)
        (a b : StockAnalysis.MergedStock), StockAnalysis.rankLe a b →
      [a, b].Sublist merged →
      [a, b].Sublist (StockAnalysis.sorted_stocks merged)) := by
  refine ⟨?_, ?_, ?_, ?_⟩
  · intro merged
    exact List.sorted_insertionSort StockAnalysis.rankLe merged
  · intro merged
    exact List.perm_insertionSort StockAnalysis.rankLe merged
  · intro network now merged
    have hs : (StockAnalysis.sorted_stocks merged).Pairwise
        StockAnalysis.rankLe :=
      List.sorted_insertionSort StockAnalysis.rankLe merged
    unfold StockAnalysis.fifth_stage StockAnalysis.fetch_stocks_price
    rw [List.pairwise_filterMap]
    refine hs.imp ?_
    intro s t hst x hx y hy
    rw [Option.mem_def, Option.map_eq_some'] at hx hy
    obtain ⟨fx, _, hx⟩ := hx
    obtain ⟨fy, _, hy⟩ := hy
    subst hx hy
    exact hst
  · intro merged a b hab hsub
    exact List.pair_sublist_insertionSort hab hsub

/-- C5 witness: the amended sort facts at a concrete pair of tied
stocks. -/
theorem C5_sort_amended_witness :
    [demoStock1101, demoStock1102].Sublist
      (StockAnalysis.sorted_stocks demoMerged5) :=
  C5_sort_amended.2.2.2 demoMerged5 demoStock1101 demoStock1102
    (by decide) (List.Sublist.refl demoMerged5)

namespace StockAnalysisOld

/-- roundHalfEven rounds a rational to the nearest integer with ties to
the even integer, the rounding Python float formatting applies (the
binary-float representation can shift exact decimal ties by an ulp; every
value used below is unambiguous). -/
def roundHalfEven (q : ℚ) : ℤ :=
  let f := ⌊q⌋
  let r := q - f
  if r < 1 / 2 then f
  else if 1 / 2 < r then f + 1
  else if f % 2 = 0 then f else f + 1

/-- format2f models the only price formatting for display in the
repository: the fixed two-decimal f-string conversion applied to
current_price in generate_html_report of stock_analysis_old.py. It uses
two decimal places for every magnitude. -/
def format2f (q : ℚ) : String :=
  let cents := roundHalfEven (q * 100)
  let sign := if cents < 0 then "-" else ""
  let n := cents.natAbs
  sign ++ toString (n / 100) ++ "." ++
    (if n % 100 < 10 then "0" else "") ++ toString (n % 100)

end StockAnalysisOld

/-- Evaluation of the display formatter at 1500. -/
lemma format2f_1500 : StockAnalysisOld.format2f 1500 = "1500.00" := by
  have h : StockAnalysisOld.roundHalfEven ((1500 : ℚ) * 100) = 150000 := by
    unfold StockAnalysisOld.roundHalfEven
    norm_num
  unfold StockAnalysisOld.format2f
  rw [h]
  decide

/-- Evaluation of the display formatter at 250.567. -/
lemma format2f_250_567 :
    StockAnalysisOld.format2f (250567 / 1000) = "250.57" := by
  have h : StockAnalysisOld.roundHalfEven ((250567 / 1000 : ℚ) * 100) =
      25057 := by
    unfold StockAnalysisOld.roundHalfEven
    norm_num
  unfold StockAnalysisOld.format2f
  rw [h]
  decide

/-- Evaluation of the display formatter at 45.678. -/
lemma format2f_45_678 :
    StockAnalysisOld.format2f (45678 / 1000) = "45.68" := by
  have h : StockAnalysisOld.roundHalfEven ((45678 / 1000 : ℚ) * 100) =
      4568 := by
    unfold StockAnalysisOld.roundHalfEven
    norm_num
  unfold StockAnalysisOld.format2f
  rw [h]
  decide

/-- C8. The claim as stated fails on the code: the only display
formatter, the two-decimal conversion in generate_html_report of
stock_analysis_old.py, renders 1500 as 1500.00, not as 1500, and no
magnitude-based precision rule exists anywhere in the sources. -/
theorem C8_format_counterexample :
    StockAnalysisOld.format2f 1500 ≠ "1500" ∧
    StockAnalysisOld.format2f 1500 = "1500.00" := by
  refine ⟨?_, format2f_1500⟩
  rw [format2f_1500]
  decide

/-- C8 (amended). The old report formatter renders every price with two
decimal places regardless of magnitude — 1500 becomes 1500.00, 250.567
becomes 250.57, 45.678 becomes 45.68 — and the current pipeline applies
no formatting at all: fetch_stocks_price copies the scraped price string
into the snapshot unchanged, so unavailable sentinels also pass through
unchanged. -/
theorem C8_format_amended :
    StockAnalysisOld.format2f 1500 = "1500.00" ∧
    StockAnalysisOld.format2f (250567 / 1000) = "250.57" ∧
    StockAnalysisOld.format2f (45678 / 1000) = "45.68" ∧
    (∀ (now : String) (s : StockAnalysis.MergedStock)
        (info : StockAnalysis.YahooFields),
      (StockAnalysis.mkPriceRecord now s info).current_price = info.price) :=
  ⟨format2f_1500, format2f_250_567, format2f_45_678, fun _ _ _ => rfl⟩

/-- C9. The claim as stated fails on the code: the finalized output
embeds the wall-clock reading (update_time in the assembled artifact of
stock_analysis.py main, mirrored by timestamp, date and time in
save_data of fetch_stock_data.py), so two invocations on identical
inputs at different clock readings produce different artifacts. -/
theorem C9_output_time_counterexample :
    StockAnalysis.assemble_output "2025-01-01 10:00:00" "TSE" 3 [] ≠
      StockAnalysis.assemble_output "2025-01-01 10:05:00" "TSE" 3 [] := by
  decide

/-- C9 (amended). The merge and assembly stages are pure functions of
their inputs plus the clock reading: with the clock fixed, repeated
invocations give identical output, and two outputs over the same inputs
agree exactly when the clock strings agree; the clock enters each
snapshot as its update_time field. -/
theorem C9_output_determinism_amended :
    (∀ (t₁ t₂ market : String) (n : Nat)
        (stocks : List StockAnalysis.PriceRecord),
      StockAnalysis.assemble_output t₁ market n stocks =
          StockAnalysis.assemble_output t₂ market n stocks ↔ t₁ = t₂) ∧
    (∀ (network : String → List StockAnalysis.FetchOutcome) (now : String)
        (l : List StockAnalysis.MergedStock)
        (r : StockAnalysis.PriceRecord),
      r ∈ StockAnalysis.fetch_stocks_price network now l →
      r.update_time = now) := by
  constructor
  · intro t₁ t₂ market n stocks
    simp [StockAnalysis.assemble_output, StockAnalysis.MarketOutput.mk.injEq]
  · intro network now l r hr
    obtain ⟨s, _, hmap⟩ := List.mem_filterMap.mp hr
    rw [Option.map_eq_some'] at hmap
    obtain ⟨fields, _, hmk⟩ := hmap
    subst hmk
    rfl

/-- demoStockC9: one merged stock for the C9 witness run. -/
def demoStockC9 : StockAnalysis.MergedStock :=
  { code := "2330", name := "TSMC", market := "TSE", mention_count := 2,
    yesterday_buy := 40, source := "news" }

/-- demoYahooC9: the page demoStockC9 scrapes in the C9 witness run. -/
def demoYahooC9 : StockAnalysis.YahooFields :=
  { price := "990", openPrice := "980", change := "+10",
    changePercent := "+1%", buyTotal := "5", sellTotal := "6" }

/-- demoNetC9: every attempt returns the same page. -/
def demoNetC9 : String → List StockAnalysis.FetchOutcome :=
  fun _ => [StockAnalysis.FetchOutcome.ok demoYahooC9]

/-- C9 witness: the amended determinism facts at one concrete run. -/
theorem C9_output_determinism_amended_witness :
    (StockAnalysis.assemble_output "10:00:00" "TSE" 1
        (StockAnalysis.fetch_stocks_price demoNetC9 "10:00:00"
          [demoStockC9]) =
      StockAnalysis.assemble_output "10:00:00" "TSE" 1
        (StockAnalysis.fetch_stocks_price demoNetC9 "10:00:00"
          [demoStockC9])) ∧
    (StockAnalysis.mkPriceRecord "10:00:00" demoStockC9
        demoYahooC9).update_time = "10:00:00" :=
  ⟨((C9_output_determinism_amended.1 "10:00:00" "10:00:00" "TSE" 1
      (StockAnalysis.fetch_stocks_price demoNetC9 "10:00:00"
        [demoStockC9])).mpr rfl),
   C9_output_determinism_amended.2 demoNetC9 "10:00:00" [demoStockC9]
     (StockAnalysis.mkPriceRecord "10:00:00" demoStockC9 demoYahooC9)
     (by decide)⟩

/-- FsOp is one file-system operation of the persistence stages. The
replaceFile constructor models an atomic os.replace of a temporary file
onto the target; it is part of the vocabulary so the claimed atomic
persist can be stated, and no definition below ever emits it. -/
inductive FsOp where
  | makedirs (path : String)
  | writeFile (path : String)
  | readFile (path : String)
  | replaceFile (src dst : String)
deriving DecidableEq, Repr

namespace FetchStockData

/-- save_data_trace is the file-system trace of save_data in
fetch_stock_data.py for one run: create the data directory, open and
json.dump the latest artifact in place, then the timestamped history
artifact, then update_data_list reads and rewrites the index in place. -/
def save_data_trace (timestamp : String) : List FsOp :=
  [FsOp.makedirs "data",
   FsOp.writeFile "data/latest.json",
   FsOp.writeFile ("data/stock_data_" ++ timestamp ++ ".json"),
   FsOp.readFile "data/data_list.json",
   FsOp.writeFile "data/data_list.json"]

end FetchStockData

namespace StockAnalysis

/-- save_output_trace is the file-system trace of the sixth stage of
stock_analysis.py main for one market: a single direct open-and-dump of
the output artifact path. -/
def save_output_trace (outputPath : String) : List FsOp :=
  [FsOp.writeFile outputPath]

end StockAnalysis

/-- usesReplace: some operation of the trace is an atomic replace. -/
def usesReplace (trace : List FsOp) : Bool :=
  trace.any (fun op => match op with
    | FsOp.replaceFile _ _ => true
    | _ => false)

/-- writesDirectly target trace: the trace opens the target itself for
writing, rather than a temporary location. -/
def writesDirectly (target : String) (trace : List FsOp) : Bool :=
  trace.any (fun op => match op with
    | FsOp.writeFile p => p = target
    | _ => false)

/-- C7. The claim as stated fails on the code: save_data in
fetch_stock_data.py opens data/latest.json itself for writing and its
trace contains no atomic replace at all, so persistence does not go
through a temporary location, and a process terminated mid-dump can leave
a partially-written latest artifact visible. -/
theorem C7_persist_counterexample :
    writesDirectly "data/latest.json"
        (FetchStockData.save_data_trace "20250101_120000") = true ∧
    usesReplace (FetchStockData.save_data_trace "20250101_120000") = false := by
  refine ⟨by decide, by decide⟩

/-- C7 (amended). For every run, both persistence sites write the final
artifact directly in place — save_data in fetch_stock_data.py writes
data/latest.json itself, and the sixth stage of stock_analysis.py writes
the market output path itself — and neither ever performs an atomic
replace, so nothing prevents a partially-written latest artifact when the
process dies mid-write. -/
theorem C7_persist_amended :
    (∀ timestamp : String,
      writesDirectly "data/latest.json"
          (FetchStockData.save_data_trace timestamp) = true ∧
      usesReplace (FetchStockData.save_data_trace timestamp) = false) ∧
    (∀ outputPath : String,
      writesDirectly outputPath
          (StockAnalysis.save_output_trace outputPath) = true ∧
      usesReplace (StockAnalysis.save_output_trace outputPath) = false) := by
  constructor
  · intro timestamp
    constructor
    · simp [FetchStockData.save_data_trace, writesDirectly]
    · simp [FetchStockData.save_data_trace, usesReplace]
  · intro outputPath
    constructor
    · simp [StockAnalysis.save_output_trace, writesDirectly]
    · simp [StockAnalysis.save_output_trace, usesReplace]

/-- Modelled from the spec: the priorNetBuyVolume precedence of
SnapshotMerger.merge (spec section 4.4). The deciding code is not under
src: no source file takes an isColdStart flag or an InstitutionalNetFlow
input — merge_stocks in stock_analysis.py merges only news mentions, the
loaded ranking file and the company list — so this definition renders the
words of the spec. persisted is the value recorded in the loaded
WatchlistEntry, none when the code is not in the loaded watchlist;
instFlow is the institutional net-flow value for the code. -/
def spec_priorNetBuyVolume (isColdStart : Bool)
    (persisted instFlow : Option Int) : Option Int :=
  if isColdStart then instFlow
  else
    match persisted with
    | some v => if v = 0 then instFlow else some v
    | none => instFlow

/-- C1. On a cold-start run the institutional net-flow value is always
used; on a warm run a nonzero persisted value wins, and the institutional
value is used exactly when the persisted value is zero or the code is not
in the loaded watchlist. -/
theorem C1_priorNetBuyVolume_precedence :
    (∀ persisted instFlow : Option Int,
      spec_priorNetBuyVolume true persisted instFlow = instFlow) ∧
    (∀ (v : Int) (instFlow : Option Int), v ≠ 0 →
      spec_priorNetBuyVolume false (some v) instFlow = some v) ∧
    (∀ instFlow : Option Int,
      spec_priorNetBuyVolume false (some 0) instFlow = instFlow) ∧
    (∀ instFlow : Option Int,
      spec_priorNetBuyVolume false none instFlow = instFlow) := by
  refine ⟨fun _ _ => rfl, ?_, fun _ => rfl, fun _ => rfl⟩
  intro v instFlow hv
  simp [spec_priorNetBuyVolume, hv]

/-- C1 witness: a warm run with a nonzero persisted value keeps it. -/
theorem C1_priorNetBuyVolume_precedence_witness :
    spec_priorNetBuyVolume false (some 250) (some 777) = some 250 :=
  C1_priorNetBuyVolume_precedence.2.1 250 (some 777) (by decide)

/-- Modelled from the spec: the change and changePercent derivation of
SnapshotMerger (spec sections 3 and 4.4). No code under src computes
these fields — get_stock_info in stock_analysis.py copies the scraped
change strings through unchanged and performs no division — so this
definition renders the words of the spec: both fields are computed from
currentPrice and priorClose only when both are valid positive numbers,
and are the unavailable sentinel (none) otherwise. -/
def spec_changeFields (currentPrice priorClose : Option ℚ) :
    Option ℚ × Option ℚ :=
  match currentPrice, priorClose with
  | some c, some p =>
    if 0 < c ∧ 0 < p then (some (c - p), some ((c - p) / p * 100))
    else (none, none)
  | _, _ => (none, none)

/-- C6. Whenever priorClose is unavailable or not positive, change and
changePercent are both the unavailable sentinel and never a computed
number; the only division sits in the branch whose guard makes the
denominator positive. -/
theorem C6_change_guarded :
    ∀ currentPrice priorClose : Option ℚ,
      (priorClose = none ∨ ∃ p, priorClose = some p ∧ p ≤ 0) →
      spec_changeFields currentPrice priorClose = (none, none) := by
  intro cur pc h
  rcases h with h | ⟨p, hp, hple⟩
  · subst h
    cases cur <;> rfl
  · subst hp
    cases cur with
    | none => rfl
    | some c =>
      unfold spec_changeFields
      have hnot : ¬ (0 < c ∧ 0 < p) := by
        rintro ⟨_, h2⟩
        exact absurd h2 (not_lt.mpr hple)
      simp [hnot]

/-- C6 witness: a zero prior close with an available current price. -/
theorem C6_change_guarded_witness :
    spec_changeFields (some 10) (some 0) = (none, none) :=
  C6_change_guarded (some 10) (some 0) (Or.inr ⟨0, rfl, le_refl 0⟩)

end StockTracker
